import Mathlib

/-
Shallow embedding of ct-brands.py (tuck1s/ct-brands): the rate-limit
classifier, domain normalization, result assembly, the summary-mode CSV
grouping writer, the API-call tally, and the error handling of the three
resolution entry points, together with theorems checking the natural
language specification against this embedding.
-/

namespace CtBrands

/-- Boolean prefix test on character lists, used to model the Python substring
operator and str.removeprefix. -/
def listIsPre : List Char → List Char → Bool
  | [], _ => true
  | _ :: _, [] => false
  | a :: as, b :: bs => a == b && listIsPre as bs

/-- Boolean contiguous-sublist test on character lists. -/
def listIsSub (needle : List Char) : List Char → Bool
  | [] => listIsPre needle []
  | b :: bs => listIsPre needle (b :: bs) || listIsSub needle bs

/-- Python's substring test: strContains s sub models the expression sub in s. -/
def strContains (s sub : String) : Bool :=
  listIsSub sub.toList s.toList

/-- The error value raised by the vendor SDK: CompetitiveTrackerAPIException
carries a numeric HTTP status and a list of message strings (err.errors). -/
structure CTAPIException where
  status : Nat
  errors : List String
deriving DecidableEq

/-- rate_limiting_in (ct-brands.py lines 16-32): returns whether the error
indicates per-second rate limiting, i.e. whether the caller should retry.
The source reads err.errors[0]; it is only reached with a non-empty message
list, modelled here with headD "". The sleep and diagnostic prints are side
effects that do not affect the returned classification. -/
def rate_limiting_in (err : CTAPIException) : Bool :=
  if err.status == 503 || err.status == 429 then
    if strContains (err.errors.headD "") "Account Over Rate Limit" then
      false
    else if strContains (err.errors.headD "") "Account Over Queries Per Second Limit" then
      true
    else false
  else false

/-- ASCII character allowed in a URL scheme after the first letter
(CPython urllib.parse scheme_chars). -/
def isSchemeChar (c : Char) : Bool :=
  c.isAlphanum || c == '+' || c == '-' || c == '.'

/-- C0 control character or space (codepoint at most 32), the class CPython
urlsplit strips from the front of a URL. -/
def isC0OrSpace (c : Char) : Bool :=
  c.toNat ≤ 32

/-- CPython urlsplit input sanitization: strip leading C0-control-or-space
characters, then remove every tab, carriage return and line feed. -/
def sanitizeUrl (cs : List Char) : List Char :=
  (cs.dropWhile isC0OrSpace).filter (fun c => c ≠ '\t' && c ≠ '\r' && c ≠ '\n')

/-- Split a character list at the first colon, returning the parts before and
after it when a colon occurs. -/
def splitAtColon : List Char → Option (List Char × List Char)
  | [] => none
  | c :: rest =>
    if c = ':' then some ([], rest)
    else
      match splitAtColon rest with
      | some (pre, post) => some (c :: pre, post)
      | none => none

/-- The components of a parsed URL that the program reads. -/
structure UrlParts where
  scheme : String
  netloc : String
deriving DecidableEq

/-- Modelled from CPython urllib.parse.urlsplit, restricted to the scheme and
netloc components (the only ones ct-brands.py reads): sanitize the input; if
the text before the first colon starts with an ASCII letter and consists of
scheme characters, it is the scheme (lowercased); the netloc is the text after
a leading double slash up to the first slash, question mark or hash. The
bracketed-IPv6 and non-ASCII NFKC checks of CPython are omitted: they never
fire on the ASCII inputs this program handles. -/
def urlparse (url : String) : UrlParts :=
  let cs := sanitizeUrl url.toList
  let (scheme, rest) :=
    match splitAtColon cs with
    | some (pre, post) =>
      match pre with
      | c :: _ =>
        if c.isAlpha && pre.all isSchemeChar then (pre.map Char.toLower, post)
        else (([] : List Char), cs)
      | [] => (([] : List Char), cs)
    | none => (([] : List Char), cs)
  let netloc :=
    match rest with
    | '/' :: '/' :: r => r.takeWhile (fun c => c ≠ '/' && c ≠ '?' && c ≠ '#')
    | _ => ([] : List Char)
  ⟨String.mk scheme, String.mk netloc⟩

/-- Models the Python expression domain.removeprefix applied to the literal
www. (ct-brands.py line 51): strips the four-character prefix exactly when
present, case-sensitively. -/
def strip_www (domain : String) : String :=
  if listIsPre "www.".toList domain.toList then String.mk (domain.toList.drop 4)
  else domain

/-- org_domain (ct-brands.py lines 35-51): parse the token as a URL; if scheme
or netloc is missing, retry with http:// prepended; if the retry still lacks
scheme or netloc, return none; otherwise return the netloc with a leading
www. prefix stripped. -/
def org_domain (url : String) : Option String :=
  let parts := urlparse url
  let domain? :=
    if parts.scheme ≠ "" ∧ parts.netloc ≠ "" then some parts.netloc
    else
      let parts2 := urlparse ("http://" ++ url)
      if parts2.scheme ≠ "" ∧ parts2.netloc ≠ "" then some parts2.netloc
      else none
  domain?.map (fun d => strip_www d)

/-- CompanyDomainResult (ct-brands.py lines 175-188): one result object per
append in make_company_results. The Python initializer sets domain to None,
volume to 0 and ESPs to an empty collection (an empty set in the source; every
record reaching the writer carries a list, so ESPs is modelled as a list and
the empty initial collection as the empty list). -/
structure CompanyDomainResult where
  website : String
  company_name : String
  brand_name : String
  domain : Option String
  volume : Nat
  ESPs : List String
deriving DecidableEq

/-- The CompanyDomainResult initializer (lines 176-182). -/
def CompanyDomainResult.init (website company_name brand_name : String) :
    CompanyDomainResult :=
  ⟨website, company_name, brand_name, none, 0, []⟩

/-- The accumulator grouped_r of the summary-mode writer (lines 292-294 and
309-311): a deep copy of the incoming record with the domain attribute deleted
and a domain_count added. -/
structure GroupedResult where
  website : String
  company_name : String
  brand_name : String
  volume : Nat
  ESPs : List String
  domain_count : Nat
deriving DecidableEq

/-- Start a new accumulator from an incoming record (deepcopy, del domain,
domain_count = 1). -/
def toGroup (r : CompanyDomainResult) : GroupedResult :=
  ⟨r.website, r.company_name, r.brand_name, r.volume, r.ESPs, 1⟩

/-- The merge condition of the summary-mode writer (lines 296-297): Python
attribute equality on website, company_name, brand_name and ESPs; ESPs is
compared with the list equality operator, which is elementwise and
order-sensitive. -/
def matchesGroup (g : GroupedResult) (r : CompanyDomainResult) : Bool :=
  r.website == g.website && r.company_name == g.company_name
    && r.brand_name == g.brand_name && r.ESPs == g.ESPs

/-- One observable output action of the writer: the CSV header row or a data
row carrying the flushed accumulator. -/
inductive OutEvent where
  | header
  | row (g : GroupedResult)
deriving DecidableEq

/-- The loop body of ResultWriter.write in summary mode (lines 289-311).
State: fh says whether the csv.DictWriter has been created (the header
written); grouped is the current accumulator. Returns the final fh, the final
accumulator and the emitted output events. A mid-stream flush creates the
header writer when absent (lines 303-306) and then writes the accumulator. -/
def summaryLoop (fh : Bool) (grouped : Option GroupedResult) :
    List CompanyDomainResult → Bool × Option GroupedResult × List OutEvent
  | [] => (fh, grouped, [])
  | r :: rest =>
    match grouped with
    | none => summaryLoop fh (some (toGroup r)) rest
    | some g =>
      if matchesGroup g r then
        summaryLoop fh
          (some { g with volume := g.volume + r.volume,
                         domain_count := g.domain_count + 1 }) rest
      else
        let headerEvs : List OutEvent := if fh then [] else [.header]
        let tailOut := summaryLoop true (some (toGroup r)) rest
        (tailOut.1, tailOut.2.1, headerEvs ++ .row g :: tailOut.2.2)

/-- ResultWriter.write in summary (non-verbose) mode (lines 287-314) for one
call, given whether the header writer already exists from earlier calls: run
the grouping loop with an empty accumulator, then write the final accumulator
only when it is non-null AND the header writer exists (line 313: the guard
if grouped_r and self.fh). Returns the updated header-writer flag and the
emitted events. -/
def writeSummary (fh : Bool) (result : List CompanyDomainResult) :
    Bool × List OutEvent :=
  let out := summaryLoop fh none result
  match out.2.1 with
  | some g => if out.1 then (out.1, out.2.2 ++ [.row g]) else (out.1, out.2.2)
  | none => (out.1, out.2.2)

/-- A brand entry as returned by the company graph (id and name are the only
fields make_company_results reads). -/
structure Brand where
  id : Nat
  name : String
deriving DecidableEq

/-- A heap of CompanyDomainResult objects, modelling Python object identity:
an address is an index into objs, and result lists hold addresses, so
appending the same object twice appends the same address twice. -/
structure Heap where
  objs : List CompanyDomainResult
deriving DecidableEq

/-- Allocate a fresh object, returning the new heap and the object address. -/
def Heap.alloc (h : Heap) (r : CompanyDomainResult) : Heap × Nat :=
  (⟨h.objs ++ [r]⟩, h.objs.length)

/-- Overwrite the object at an address (attribute assignment on the object). -/
def Heap.setObj (h : Heap) (a : Nat) (r : CompanyDomainResult) : Heap :=
  ⟨h.objs.set a r⟩

/-- Read the object at an address. -/
def Heap.getObj (h : Heap) (a : Nat) : CompanyDomainResult :=
  h.objs.getD a (CompanyDomainResult.init "" "" "")

/-- Insert or overwrite one key in a Python dict modelled as an
insertion-ordered association list: an existing key keeps its position and
gets the new value, a new key is appended. -/
def dictInsert (kvs : List (String × Nat)) (k : String) (v : Nat) :
    List (String × Nat) :=
  if kvs.any (fun p => p.1 == k) then
    kvs.map (fun p => if p.1 == k then (p.1, v) else p)
  else kvs ++ [(k, v)]

/-- The dict comprehension of line 233 building domain_name_vol from the
top-domains list: insertion order, later duplicates overwrite in place. -/
def dictOfPairs (l : List (String × Nat)) : List (String × Nat) :=
  l.foldl (fun acc p => dictInsert acc p.1 p.2) []

/-- One mutation step of the inner loop body (lines 242-244): assign the
domain, volume and ESPs attributes of the record, leaving the other
attributes unchanged. The entry carries (domain name, projected volume,
ESP name list). -/
def updateRec (r : CompanyDomainResult) (e : String × Nat × List String) :
    CompanyDomainResult :=
  { r with domain := some e.1, volume := e.2.1, ESPs := e.2.2 }

/-- The innermost loop of make_company_results (lines 240-245): for each ESP
breakdown entry j of the current domain, mutate the single res object at
address a and append that same address to the result list. The breakdown
entry is modelled by its extracted ESP name list (line 241). -/
def innerLoop (h : Heap) (a : Nat) (acc : List Nat) (d : String)
    (projVol : Nat) : List (List String) → Heap × List Nat
  | [] => (h, acc)
  | esplist :: rest =>
    innerLoop (h.setObj a (updateRec (h.getObj a) (d, projVol, esplist)))
      a (acc ++ [a]) d projVol rest

/-- The per-domain loop of make_company_results (lines 238-245), iterating
over the insertion-ordered pairs of domain_name_vol; volEsps gives, per
domain name, the list of breakdown entries (each an ESP name list) found in
volume_avg_and_esps for that name. -/
def brandEntryLoop (h : Heap) (a : Nat) (acc : List Nat)
    (volEsps : String → List (List String)) :
    List (String × Nat) → Heap × List Nat
  | [] => (h, acc)
  | (d, projVol) :: rest =>
    let out := innerLoop h a acc d projVol (volEsps d)
    brandEntryLoop out.1 a out.2 volEsps rest

/-- The per-brand loop of make_company_results (lines 214-245): fetch the top
domains for the brand (modelled by the topDomains function, the happy path of
the retry loop at lines 218-228), construct one fresh CompanyDomainResult res
(line 230), and only when the domains list is non-empty run the domain loop
that mutates and repeatedly appends that one object. When the domains list is
empty, nothing is appended for the brand. -/
def brandLoop (h : Heap) (acc : List Nat) (website company_name : String)
    (topDomains : Nat → List (String × Nat))
    (volEsps : String → List (List String)) : List Brand → Heap × List Nat
  | [] => (h, acc)
  | brand :: rest =>
    let domains := topDomains brand.id
    let allocOut := h.alloc (CompanyDomainResult.init website company_name brand.name)
    if domains.isEmpty then
      brandLoop allocOut.1 acc website company_name topDomains volEsps rest
    else
      let out := brandEntryLoop allocOut.1 allocOut.2 acc volEsps
        (dictOfPairs domains)
      brandLoop out.1 out.2 website company_name topDomains volEsps rest

/-- make_company_results (lines 191-246) on the path where brand_results are
supplied inline (non-None), with the remote lookups abstracted by total
functions giving the data the happy-path calls return: topDomains is
ct.intelligence.brand.get_top_domains by brand id, volEsps indexes the
per-brand ct.domain_info.get_brand_volume_and_esps response by domain name.
Returns the final heap and the result list of object addresses. -/
def make_company_results (website company_name : String)
    (brand_results : List Brand) (topDomains : Nat → List (String × Nat))
    (volEsps : String → List (List String)) : Heap × List Nat :=
  brandLoop ⟨[]⟩ [] website company_name topDomains volEsps brand_results

/-- Read out the records of a result list of addresses, as a consumer of the
returned list observes them after make_company_results returns. -/
def materialize (h : Heap) (addrs : List Nat) : List CompanyDomainResult :=
  addrs.map h.getObj

/-- The flattened sequence of (domain, volume, ESP list) entries the domain
loop of one brand processes, in processing order. -/
def brandEntries (pairs : List (String × Nat))
    (volEsps : String → List (List String)) :
    List (String × Nat × List String) :=
  pairs.flatMap (fun p => (volEsps p.1).map (fun es => (p.1, p.2, es)))

/-- The api_calls dict threaded through the resolvers: a Python dict from
call name to count, modelled as an insertion-ordered association list. -/
abbrev ApiCallTally : Type := List (String × Nat)

/-- register_call (lines 165-172): increment the named counter, creating it
at 1 when absent. The Python dict is modelled as an association list with
unique keys in insertion order: the update increments the entry for the name
when present and appends the name at 1 otherwise. -/
def register_call : ApiCallTally → String → ApiCallTally
  | [], name => [(name, 1)]
  | p :: rest, name =>
    if p.1 == name then (p.1, p.2 + 1) :: rest
    else p :: register_call rest name

/-- Read a counter from the tally (0 when the key is absent). -/
def tallyCount : ApiCallTally → String → Nat
  | [], _ => 0
  | p :: rest, name => if p.1 == name then p.2 else tallyCount rest name

/-- One outcome of an attempt of a remote call: a response, or a raised
CompetitiveTrackerAPIException. -/
inductive CallOutcome (α : Type) where
  | ok (response : α)
  | err (e : CTAPIException)
deriving DecidableEq

/-- The while/try retry loop shared by get_company_info_from_website (lines
65-75), get_company_info_from_sending_domain, get_company_info_from_name,
company_info and the brand lookups of make_company_results: the attempts list
is the trace of successive outcomes the remote call produces. On a response
the loop registers the named call and returns it; on a rate-limiting error it
retries; on any other error it returns None without registering. An exhausted
trace (only reachable in the model, since the loop itself never gives up on
rate limiting) yields None. -/
def retry_call_register_after {α : Type} (d : ApiCallTally) (name : String) :
    List (CallOutcome α) → ApiCallTally × Option α
  | [] => (d, none)
  | .ok a :: _ => (register_call d name, some a)
  | .err e :: rest =>
    if rate_limiting_in e then retry_call_register_after d name rest
    else (d, none)

/-- get_vol_avg_and_esps (lines 249-268): the same retry loop, but the source
registers the call name BEFORE invoking the remote call on every attempt
(line 259 precedes line 260 inside the while body), so each retry registers
again. -/
def get_vol_avg_and_esps {α : Type} (d : ApiCallTally) :
    List (CallOutcome α) → ApiCallTally × Option α
  | [] => (d, none)
  | outcome :: rest =>
    let d2 := register_call d "ct.domain_info.get_brand_volume_and_esps"
    match outcome with
    | .ok a => (d2, some a)
    | .err e =>
      if rate_limiting_in e then get_vol_avg_and_esps d2 rest else (d2, none)

/-- The number of attempts the retry loop makes on a trace: every attempt up
to and including the first response or first non-rate-limiting error. -/
def attemptsMade {α : Type} : List (CallOutcome α) → Nat
  | [] => 0
  | .ok _ :: _ => 1
  | .err e :: rest => if rate_limiting_in e then 1 + attemptsMade rest else 1

/-- A scalar Python value of the JSON fragment the program inspects. -/
inductive PyScalar where
  | int (n : Int)
  | str (s : String)
deriving DecidableEq

/-- A Python value produced by json.loads, restricted to the flat fragment
the program inspects: integers, strings, and one-level objects with integer
or string values. -/
inductive PyVal where
  | scalar (v : PyScalar)
  | dict (fields : List (String × PyScalar))
deriving DecidableEq

/-- JSON whitespace. -/
def isJsonWs (c : Char) : Bool :=
  c == ' ' || c == '\t' || c == '\n' || c == '\r'

/-- Skip JSON whitespace. -/
def skipWs (cs : List Char) : List Char :=
  cs.dropWhile isJsonWs

/-- The opening brace character. -/
def lbrace : Char := Char.ofNat 123

/-- The closing brace character. -/
def rbrace : Char := Char.ofNat 125

/-- Parse a JSON string literal without escape sequences: a double quote, any
characters other than a double quote or backslash, a closing double quote.
Returns the content and the remaining input. -/
def parseJString (cs : List Char) : Option (String × List Char) :=
  match cs with
  | '"' :: rest =>
    let content := rest.takeWhile (fun c => c ≠ '"' && c.toNat ≠ 92)
    match rest.drop content.length with
    | '"' :: rest2 => some (String.mk content, rest2)
    | _ => none
  | _ => none

/-- Digits to a natural number. -/
def digitsToNat (ds : List Char) : Nat :=
  ds.foldl (fun n c => n * 10 + (c.toNat - 48)) 0

/-- Parse a JSON integer literal (optional minus sign, one or more digits). -/
def parseJInt (cs : List Char) : Option (Int × List Char) :=
  match cs with
  | '-' :: rest =>
    let ds := rest.takeWhile Char.isDigit
    if ds.isEmpty then none
    else some (-(Int.ofNat (digitsToNat ds)), rest.drop ds.length)
  | _ =>
    let ds := cs.takeWhile Char.isDigit
    if ds.isEmpty then none
    else some (Int.ofNat (digitsToNat ds), cs.drop ds.length)

/-- Parse a scalar JSON value of the fragment: a string or an integer. -/
def parseScalar (cs : List Char) : Option (PyScalar × List Char) :=
  match parseJString cs with
  | some sp => some (.str sp.1, sp.2)
  | none =>
    match parseJInt cs with
    | some np => some (.int np.1, np.2)
    | none => none

/-- Parse the members of a flat JSON object after the opening brace, up to and
including the closing brace, with fuel bounded by the input length. -/
def parseMembers : Nat → List Char → Option (List (String × PyScalar) × List Char)
  | 0, _ => none
  | fuel + 1, cs =>
    match parseJString (skipWs cs) with
    | none => none
    | some kp =>
      match skipWs kp.2 with
      | ':' :: rest2 =>
        match parseScalar (skipWs rest2) with
        | none => none
        | some vp =>
          match skipWs vp.2 with
          | ',' :: rest4 =>
            match parseMembers fuel rest4 with
            | some mp => some ((kp.1, vp.1) :: mp.1, mp.2)
            | none => none
          | c :: rest4 =>
            if c == rbrace then some ([(kp.1, vp.1)], rest4) else none
          | [] => none
      | _ => none

/-- Modelled from Python json.loads restricted to the flat fragment the
program inspects (line 99): a top-level integer, string, or one-level object
with integer or string values and no escape sequences; every other input
fails, modelling a raised json.JSONDecodeError as none. -/
def json_loads (s : String) : Option PyVal :=
  let cs := skipWs s.toList
  match cs with
  | c :: rest =>
    if c == lbrace then
      match skipWs rest with
      | c2 :: rest2 =>
        if c2 == rbrace then
          if (skipWs rest2).isEmpty then some (.dict []) else none
        else
          match parseMembers (rest.length + 1) rest with
          | some mp => if (skipWs mp.2).isEmpty then some (.dict mp.1) else none
          | none => none
      | [] => none
    else
      match parseScalar cs with
      | some vp => if (skipWs vp.2).isEmpty then some (.scalar vp.1) else none
      | none => none
  | [] => none

/-- Python dict.get on the parsed object: the value of the first matching
key, none when absent. -/
def dictGet (fields : List (String × PyScalar)) (k : String) : Option PyScalar :=
  match fields.find? (fun p => p.1 == k) with
  | some p => some p.2
  | none => none

/-- What the except-branch of a resolver does with a caught
CompetitiveTrackerAPIException. -/
inductive HandlerOutcome where
  | retry
  | quietNone
  | logAndSkip
  | unhandledException (kind : String)
deriving DecidableEq

/-- The except-branch of get_company_info_from_sending_domain (lines 93-104):
rate limiting retries; otherwise, when the error carries messages, the first
message is fed to json.loads — a message that is not valid JSON raises an
uncaught json.JSONDecodeError (terminating the whole run), a JSON value that
is not an object raises an uncaught AttributeError on response.get, and an
object with code 404 and type MISSING returns None quietly; every remaining
case prints the error to stderr and returns None (the token is skipped). -/
def sending_domain_error_handler (err : CTAPIException) : HandlerOutcome :=
  if rate_limiting_in err then .retry
  else if !err.errors.isEmpty then
    match json_loads (err.errors.headD "") with
    | none => .unhandledException "json.JSONDecodeError"
    | some (.dict fields) =>
      if dictGet fields "code" == some (.int 404)
          && dictGet fields "type" == some (.str "MISSING") then
        .quietNone
      else .logAndSkip
    | some _ => .unhandledException "AttributeError"
  else .logAndSkip

/-- The except-branch of get_company_info_from_website (lines 70-75), shared
shape with get_company_info_from_name and company_info: rate limiting
retries, everything else prints the error to stderr and returns None. -/
def website_error_handler (err : CTAPIException) : HandlerOutcome :=
  if rate_limiting_in err then .retry else .logAndSkip

/-- The argument passed to ct.core.graph.get_company_from_domain by
get_company_info_from_sending_domain (line 90): the raw token, with no
normalization. -/
def sending_domain_lookup_arg (sending_domain : String) : String :=
  sending_domain

/-- The argument passed to ct.core.graph.get_company_from_domain by
get_company_info_from_website (line 67): the token normalized by org_domain. -/
def website_lookup_arg (company_site : String) : Option String :=
  org_domain company_site

/-- Whether the main loop calls fh.write for a token result (lines 362-365):
Python truthiness of result, so both None and an empty list skip the token
with a notice on stderr and produce no output rows. -/
def main_emits_rows (result : Option (List CompanyDomainResult)) : Bool :=
  match result with
  | some l => !l.isEmpty
  | none => false

/-- An output stream of the process. -/
inductive OutStream where
  | stdout
  | stderr
deriving DecidableEq

/-- The startup credential check (lines 333-336): when the CT_API_KEY
environment variable is absent, the program prints its diagnostic with a bare
print call — which writes to standard output — and exits with status 1,
before any input line is read; with the key present it proceeds (none). -/
def startup_check (key : Option String) : Option (OutStream × String × Nat) :=
  match key with
  | none => some (.stdout, "Please define CT_API_KEY env variable before running.", 1)
  | some _ => none

/-- Concrete record of the end-to-end scenario: sending domain mail.acme.com
of brand Acme Shop, volume 1000, ESP SendGrid. -/
def acmeMailRec : CompanyDomainResult :=
  ⟨"example.com", "Acme", "Acme Shop", some "mail.acme.com", 1000, ["SendGrid"]⟩

/-- Concrete record of the end-to-end scenario: sending domain news.acme.com
of brand Acme Shop, volume 500, ESP SendGrid. -/
def acmeNewsRec : CompanyDomainResult :=
  ⟨"example.com", "Acme", "Acme Shop", some "news.acme.com", 500, ["SendGrid"]⟩

/-- Record with ESP list in one order. -/
def espOrderRec1 : CompanyDomainResult :=
  ⟨"example.com", "Acme", "Acme Shop", some "mail.acme.com", 1000,
   ["SendGrid", "Mailgun"]⟩

/-- Record identical to espOrderRec1 except for the domain and the order of
the ESP names. -/
def espOrderRec2 : CompanyDomainResult :=
  ⟨"example.com", "Acme", "Acme Shop", some "news.acme.com", 500,
   ["Mailgun", "SendGrid"]⟩

/-- Top-domains lookup for the brand-with-no-domains scenario: brand 1 has no
domains, brand 2 has one. -/
def c2TopDomains : Nat → List (String × Nat) :=
  fun i => if i == 2 then [("mail.acme.com", 1000)] else []

/-- Volume/ESP breakdown for the brand-with-no-domains scenario. -/
def c2VolEsps : String → List (List String) :=
  fun _ => [["SendGrid"]]

/-- Top-domains lookup of the end-to-end scenario: one brand with two sending
domains. -/
def c4TopDomains : Nat → List (String × Nat) :=
  fun _ => [("mail.acme.com", 1000), ("news.acme.com", 500)]

/-- Volume/ESP breakdown of the end-to-end scenario: one breakdown entry per
domain, ESP SendGrid. -/
def c4VolEsps : String → List (List String) :=
  fun _ => [["SendGrid"]]

/-- An error message containing both rate-limiting substrings. -/
def bothLimitsMsg : String :=
  "Account Over Rate Limit and Account Over Queries Per Second Limit"

/-- A per-second rate-limiting error as issued by the service. -/
def qpsError : CTAPIException :=
  ⟨429, ["Account Over Queries Per Second Limit"]⟩

/-- The structured not-found body of the sending-domain lookup. -/
def missingBody : String :=
  "\x7b\"code\": 404, \"type\": \"MISSING\"\x7d"

/-- C1: the spec says the summary writer flushes the final accumulator after
the sequence ends, so the end-to-end scenario (two records of one group, on a
fresh writer) must produce exactly one output row with volume 1500 and
domainCount 2. The code instead drops the final accumulator whenever no
earlier flush created the csv writer: the grouping loop does build the single
merged group with volume 1500 and domainCount 2, but write emits no header
and no rows, because the final flush at line 313 is guarded by self.fh, which
is only ever created inside a mid-stream flush. -/
theorem c1_final_group_dropped :
    (summaryLoop false none [acmeMailRec, acmeNewsRec]).2.1
      = some ⟨"example.com", "Acme", "Acme Shop", 1500, ["SendGrid"], 2⟩
    ∧ writeSummary false [acmeMailRec, acmeNewsRec] = (false, []) := by
  decide

/-- C2: the spec says a brand whose top-sending-domains lookup returns zero
domains yields exactly one ResultRecord with null domain, zero volume and
empty ESPs, never zero records. The code constructs exactly that record
(line 230) but only appends inside the non-empty-domains branch, so the
brand contributes zero records: with brands Empty Brand (no domains) and
Full Brand (one domain), the returned list holds only Full Brand's record,
while the heap shows Empty Brand's null record was allocated and dropped. -/
theorem c2_no_domain_brand_dropped :
    (make_company_results "example.com" "Acme" [⟨1, "Empty Brand"⟩, ⟨2, "Full Brand"⟩]
        c2TopDomains c2VolEsps).2 = [1]
    ∧ materialize
        (make_company_results "example.com" "Acme" [⟨1, "Empty Brand"⟩, ⟨2, "Full Brand"⟩]
          c2TopDomains c2VolEsps).1
        (make_company_results "example.com" "Acme" [⟨1, "Empty Brand"⟩, ⟨2, "Full Brand"⟩]
          c2TopDomains c2VolEsps).2
      = [⟨"example.com", "Acme", "Full Brand", some "mail.acme.com", 1000, ["SendGrid"]⟩]
    ∧ (make_company_results "example.com" "Acme" [⟨1, "Empty Brand"⟩, ⟨2, "Full Brand"⟩]
        c2TopDomains c2VolEsps).1.objs
      = [CompanyDomainResult.init "example.com" "Acme" "Empty Brand",
         ⟨"example.com", "Acme", "Full Brand", some "mail.acme.com", 1000, ["SendGrid"]⟩] := by
  decide

/-- C3 counterexample: two consecutive records that agree on originInput,
companyName and brandName and whose ESP lists are permutations of each other
(same names, different order) are NOT merged by the summary writer: with the
header already written, the writer emits two rows, not the single merged row
the claim requires. -/
theorem c3_counterexample :
    espOrderRec1.ESPs.Perm espOrderRec2.ESPs
    ∧ writeSummary true [espOrderRec1, espOrderRec2]
        = (true, [.row (toGroup espOrderRec1), .row (toGroup espOrderRec2)]) := by
  constructor
  · decide
  · decide

/-- C5 counterexample: an error whose first message contains the substring
Account Over Queries Per Second Limit is classified as not-retryable
(rate_limiting_in returns false) when the message also contains Account Over
Rate Limit, because the source checks the Rate Limit substring first; the
claim says such an error is classified RETRY. -/
theorem c5_counterexample :
    strContains bothLimitsMsg "Account Over Queries Per Second Limit" = true
    ∧ rate_limiting_in ⟨429, [bothLimitsMsg]⟩ = false := by
  decide

/-- C6 counterexample: a single invocation of the volume-and-ESPs lookup that
retries once on per-second rate limiting and then returns a response
increments its counter twice, because get_vol_avg_and_esps registers the
call before every attempt; the claim says such an invocation is tallied
exactly once. -/
theorem c6_counterexample :
    (get_vol_avg_and_esps (α := Nat) [] [.err qpsError, .ok 42]).2 = some 42
    ∧ tallyCount (get_vol_avg_and_esps (α := Nat) [] [.err qpsError, .ok 42]).1
        "ct.domain_info.get_brand_volume_and_esps" = 2 := by
  decide

/-- C7 counterexample: org_domain on the token not a url does not return
null: urlparse accepts spaces in the authority, so parsing with the http
prefix prepended yields a non-empty netloc and org_domain returns it. -/
theorem c7_counterexample :
    org_domain "not a url" ≠ none := by
  decide

/-- C7 amended: the first two normalization examples hold as stated, and the
leading www. prefix is stripped only as a case-sensitive exact prefix; but
org_domain of the token not a url is that token itself, not null — null is
returned only when even the parse with the http prefix yields an empty host,
as for the empty token. -/
theorem c7_amended :
    org_domain "https://www.Example.com/path" = some "Example.com"
    ∧ org_domain "example.com" = some "example.com"
    ∧ org_domain "not a url" = some "not a url"
    ∧ org_domain "" = none
    ∧ org_domain "https://WWW.Example.com/path" = some "WWW.Example.com" := by
  decide

/-- C8: in sending-domain mode, an unclassified remote error whose message
body is plain text (here a status-500 error with body Internal Server Error)
is NOT merely skipped: the handler feeds the body to json.loads, which
raises an uncaught JSONDecodeError that terminates the run. The website and
name modes log and skip the token as the claim says. -/
theorem c8_plain_text_error_crashes :
    sending_domain_error_handler ⟨500, ["Internal Server Error"]⟩
      = .unhandledException "json.JSONDecodeError"
    ∧ website_error_handler ⟨500, ["Internal Server Error"]⟩ = .logAndSkip := by
  decide

/-- C10: with the credential environment variable unset, the program exits
with status 1 before reading any input, but its diagnostic is written with a
bare print call, i.e. to standard output — the CSV data stream — not to
standard error as the claim states. -/
theorem c10_missing_key_diagnostic_on_stdout :
    startup_check none
      = some (.stdout, "Please define CT_API_KEY env variable before running.", 1) := by
  decide

/-- C5 amended: the classification with the precedence the source implements:
an error is retryable exactly when its status is 503 or 429 and its first
message contains the Queries Per Second substring but NOT the Account Over
Rate Limit substring; the Rate Limit check runs first, so a message
containing both substrings is fatal. Everything else, including status 500,
is fatal. -/
theorem c5_amended (err : CTAPIException) :
    rate_limiting_in err
      = ((err.status == 503 || err.status == 429)
          && !strContains (err.errors.headD "") "Account Over Rate Limit"
          && strContains (err.errors.headD "") "Account Over Queries Per Second Limit") := by
  unfold rate_limiting_in
  cases h1 : (err.status == 503 || err.status == 429) <;>
  cases h2 : strContains (err.errors.headD "") "Account Over Rate Limit" <;>
  cases h3 : strContains (err.errors.headD "") "Account Over Queries Per Second Limit" <;>
  simp only [h1, h2, h3, if_true, if_false, Bool.not_true, Bool.not_false,
    Bool.true_and, Bool.false_and, Bool.and_true, Bool.and_false, ite_true, ite_false] <;>
  rfl

/-- Registering a call increments its own counter by exactly one. -/
theorem tallyCount_register (d : ApiCallTally) (n : String) :
    tallyCount (register_call d n) n = tallyCount d n + 1 := by
  induction d with
  | nil => simp [register_call, tallyCount]
  | cons p rest ih =>
    by_cases hp : (p.1 == n) = true <;>
    simp [register_call, tallyCount, hp, ih]

/-- C6 amended: for the retry-wrapped operations that register after the
remote call returns (all resolver entry points and brand lookups), the
counter grows by exactly one when the invocation ultimately returns a
response and by zero when it ends in a terminal error; the volume-and-ESPs
lookup instead registers before every attempt, so its counter grows by the
number of attempts made — rate-limited retries are counted again, and an
invocation that retries k times before succeeding is tallied k+1 times. -/
theorem c6_amended {α : Type} (d : ApiCallTally) (name : String)
    (attempts : List (CallOutcome α)) :
    tallyCount (retry_call_register_after d name attempts).1 name
      = tallyCount d name
        + (if (retry_call_register_after d name attempts).2.isSome then 1 else 0)
    ∧ tallyCount (get_vol_avg_and_esps (α := α) d attempts).1
          "ct.domain_info.get_brand_volume_and_esps"
      = tallyCount d "ct.domain_info.get_brand_volume_and_esps"
        + attemptsMade attempts := by
  constructor
  · induction attempts generalizing d with
    | nil => simp [retry_call_register_after]
    | cons outcome rest ih =>
      cases outcome with
      | ok a => simp [retry_call_register_after, tallyCount_register]
      | err e =>
        by_cases hr : rate_limiting_in e = true
        · simpa [retry_call_register_after, hr] using ih d
        · simp [retry_call_register_after, hr]
  · induction attempts generalizing d with
    | nil => simp [get_vol_avg_and_esps, attemptsMade]
    | cons outcome rest ih =>
      cases outcome with
      | ok a => simp [get_vol_avg_and_esps, attemptsMade, tallyCount_register]
      | err e =>
        by_cases hr : rate_limiting_in e = true
        · have := ih (register_call d "ct.domain_info.get_brand_volume_and_esps")
          simp only [get_vol_avg_and_esps, attemptsMade, hr, if_true, ite_true] at *
          rw [this, tallyCount_register]
          omega
        · simp [get_vol_avg_and_esps, attemptsMade, hr, tallyCount_register]

/-- C3 amended: with the header already written, two consecutive records are
merged into a single output row — with summed volume and domainCount 2 —
exactly when they agree on originInput, companyName, brandName and on the
ESP lists compared as ordered sequences (Python list equality, which is
order-sensitive); otherwise they yield two rows. The spec's order-insensitive
set comparison is not what the code does. -/
theorem c3_amended (r1 r2 : CompanyDomainResult) :
    writeSummary true [r1, r2] =
      if r2.website = r1.website ∧ r2.company_name = r1.company_name
          ∧ r2.brand_name = r1.brand_name ∧ r2.ESPs = r1.ESPs then
        (true, [.row ⟨r1.website, r1.company_name, r1.brand_name,
                      r1.volume + r2.volume, r1.ESPs, 2⟩])
      else (true, [.row (toGroup r1), .row (toGroup r2)]) := by
  by_cases h : r2.website = r1.website ∧ r2.company_name = r1.company_name
      ∧ r2.brand_name = r1.brand_name ∧ r2.ESPs = r1.ESPs
  · rw [if_pos h]
    obtain ⟨h1, h2, h3, h4⟩ := h
    have hmt : matchesGroup (toGroup r1) r2 = true := by
      simp [matchesGroup, toGroup, h1, h2, h3, h4]
    simp only [writeSummary, summaryLoop, hmt, ite_true]
    simp [toGroup]
  · rw [if_neg h]
    have hmf : matchesGroup (toGroup r1) r2 = false := by
      rw [Bool.eq_false_iff]
      intro hc
      apply h
      simp only [matchesGroup, toGroup, Bool.and_eq_true, beq_iff_eq] at hc
      exact ⟨hc.1.1.1, hc.1.1.2, hc.1.2, hc.2⟩
    simp only [writeSummary, summaryLoop, hmf, ite_false]
    simp

/-- C9: on a sending-domain lookup failure whose first message is a JSON
object with code 404 and type MISSING, the handler returns None quietly (no
error print), the lookup argument is the raw token without normalization,
and the main loop produces no output row for a None result (only the skip
notice). -/
theorem c9_not_found_quiet (token body : String) (fields : List (String × PyScalar))
    (hparse : json_loads body = some (.dict fields))
    (hcode : dictGet fields "code" = some (.int 404))
    (htype : dictGet fields "type" = some (.str "MISSING")) :
    sending_domain_error_handler ⟨404, [body]⟩ = .quietNone
    ∧ sending_domain_lookup_arg token = token
    ∧ main_emits_rows none = false := by
  refine ⟨?_, rfl, rfl⟩
  have hr : rate_limiting_in ⟨404, [body]⟩ = false := rfl
  simp only [sending_domain_error_handler, hr, ite_false, Bool.false_eq_true,
    List.isEmpty_cons, Bool.not_false, ite_true, List.headD_cons, hparse]
  simp [hcode, htype]

/-- C9 witness: the quiet not-found behavior at the concrete body the service
returns for an untracked sending domain. -/
theorem c9_witness :
    sending_domain_error_handler ⟨404, [missingBody]⟩ = .quietNone
    ∧ sending_domain_lookup_arg "mail.acme.com" = "mail.acme.com"
    ∧ main_emits_rows none = false :=
  c9_not_found_quiet "mail.acme.com" missingBody
    [("code", .int 404), ("type", .str "MISSING")] (by decide) (by decide) (by decide)

/-- Writing the element at a valid index and reading it back with a default
yields the written element. -/
theorem list_getD_set_self {α : Type} (l : List α) (i : Nat) (a d : α)
    (h : i < l.length) : (l.set i a).getD i d = a := by
  induction l generalizing i with
  | nil => simp at h
  | cons x xs ih =>
    cases i with
    | zero => rfl
    | succ j =>
      simp only [List.set_cons_succ, List.getD_cons_succ]
      exact ih j (by simpa using h)

/-- Reading back a heap store at a valid address. -/
theorem Heap.getObj_setObj_self (h : Heap) (a : Nat) (r : CompanyDomainResult)
    (ha : a < h.objs.length) : (h.setObj a r).getObj a = r := by
  show (h.objs.set a r).getD a (CompanyDomainResult.init "" "" "") = r
  exact list_getD_set_self _ _ _ _ ha

/-- Storing preserves the heap size. -/
theorem Heap.length_setObj (h : Heap) (a : Nat) (r : CompanyDomainResult) :
    (h.setObj a r).objs.length = h.objs.length := by
  simp [Heap.setObj]

/-- The innermost append loop in closed form: it folds the mutations over the
heap and appends the SAME address once per breakdown entry. -/
theorem innerLoop_eq (d : String) (v : Nat) (js : List (List String)) :
    ∀ (h : Heap) (a : Nat) (acc : List Nat),
    innerLoop h a acc d v js
      = (js.foldl (fun hh es => hh.setObj a (updateRec (hh.getObj a) (d, v, es))) h,
         acc ++ List.replicate js.length a) := by
  induction js with
  | nil => intro h a acc; simp [innerLoop]
  | cons es rest ih =>
    intro h a acc
    simp only [innerLoop, ih, List.foldl_cons, List.length_cons, List.replicate_succ]
    simp [List.append_assoc]

/-- The per-brand domain loop in closed form: over the flattened entry
sequence, it folds the mutations of the one res object and appends its
address once per entry. -/
theorem brandEntryLoop_eq (volEsps : String → List (List String))
    (pairs : List (String × Nat)) :
    ∀ (h : Heap) (a : Nat) (acc : List Nat),
    brandEntryLoop h a acc volEsps pairs
      = ((brandEntries pairs volEsps).foldl
           (fun hh e => hh.setObj a (updateRec (hh.getObj a) e)) h,
         acc ++ List.replicate (brandEntries pairs volEsps).length a) := by
  induction pairs with
  | nil => intro h a acc; simp [brandEntryLoop, brandEntries]
  | cons p rest ih =>
    intro h a acc
    obtain ⟨pd, pv⟩ := p
    simp only [brandEntryLoop, innerLoop_eq, ih, brandEntries, List.flatMap_cons,
      List.foldl_append, List.foldl_map, List.length_append, List.length_map,
      List.replicate_add, List.append_assoc]

/-- Folding overwriting mutations of a fixed valid address leaves the object
in the state given by the LAST entry. -/
theorem foldl_setObj_getObj (es : List (String × Nat × List String)) :
    ∀ (h : Heap) (a : Nat), a < h.objs.length → es ≠ [] →
    (es.foldl (fun hh e => hh.setObj a (updateRec (hh.getObj a) e)) h).getObj a
      = updateRec (h.getObj a) (es.getLastD ("", 0, [])) := by
  induction es with
  | nil => intro h a ha hne; exact absurd rfl hne
  | cons e rest ih =>
    intro h a ha hne
    cases rest with
    | nil =>
      simp only [List.foldl_cons, List.foldl_nil, List.getLastD_cons, List.getLastD_nil]
      exact Heap.getObj_setObj_self h a _ ha
    | cons e2 rest2 =>
      have hlen : a < ((h.setObj a (updateRec (h.getObj a) e)).objs.length) := by
        rw [Heap.length_setObj]; exact ha
      have step := ih (h.setObj a (updateRec (h.getObj a) e)) a hlen (by simp)
      simp only [List.foldl_cons] at step ⊢
      rw [step, Heap.getObj_setObj_self h a _ ha]
      have hu : ∀ (r : CompanyDomainResult) (x y : String × Nat × List String),
          updateRec (updateRec r x) y = updateRec r y := by
        intro r x y; rfl
      rw [hu]
      simp [List.getLastD_cons]

/-- C4: for a brand with at least two (domain, ESP-breakdown) entries,
make_company_results appends the same mutable record object once per entry:
the returned list repeats one single address, and reading the records out
after the call yields, for every position, the record carrying the domain
name, volume and ESP list of the LAST entry processed — the values of the
earlier entries appear in no emitted record. -/
theorem c4_aliased_records (website company_name : String) (brand : Brand)
    (topDomains : Nat → List (String × Nat)) (volEsps : String → List (List String))
    (htwo : 2 ≤ (brandEntries (dictOfPairs (topDomains brand.id)) volEsps).length) :
    (make_company_results website company_name [brand] topDomains volEsps).2
      = List.replicate (brandEntries (dictOfPairs (topDomains brand.id)) volEsps).length 0
    ∧ materialize (make_company_results website company_name [brand] topDomains volEsps).1
        (make_company_results website company_name [brand] topDomains volEsps).2
      = List.replicate (brandEntries (dictOfPairs (topDomains brand.id)) volEsps).length
          (updateRec (CompanyDomainResult.init website company_name brand.name)
            ((brandEntries (dictOfPairs (topDomains brand.id)) volEsps).getLastD ("", 0, []))) := by
  have hne : (topDomains brand.id).isEmpty = false := by
    cases hd : topDomains brand.id with
    | nil => rw [hd] at htwo; simp [dictOfPairs, brandEntries] at htwo
    | cons x xs => rfl
  have hesne : brandEntries (dictOfPairs (topDomains brand.id)) volEsps ≠ [] := by
    intro h0
    rw [h0] at htwo
    simp at htwo
  have hmk : make_company_results website company_name [brand] topDomains volEsps
      = ((brandEntries (dictOfPairs (topDomains brand.id)) volEsps).foldl
           (fun hh e => hh.setObj 0 (updateRec (hh.getObj 0) e))
           ⟨[CompanyDomainResult.init website company_name brand.name]⟩,
         List.replicate (brandEntries (dictOfPairs (topDomains brand.id)) volEsps).length 0) := by
    simp only [make_company_results, brandLoop, Heap.alloc, hne, List.nil_append,
      List.length_nil, Bool.false_eq_true, ite_false, brandEntryLoop_eq]
  rw [hmk]
  constructor
  · rfl
  · simp only [materialize, List.map_replicate]
    have hget := foldl_setObj_getObj
      (brandEntries (dictOfPairs (topDomains brand.id)) volEsps)
      ⟨[CompanyDomainResult.init website company_name brand.name]⟩ 0 (by simp) hesne
    rw [hget]
    rfl

/-- C4 witness: the aliasing at the concrete end-to-end data — one brand, two
sending domains, one breakdown entry each: both emitted records are the
news.acme.com record, and mail.acme.com appears in none. -/
theorem c4_witness :
    2 ≤ (brandEntries (dictOfPairs (c4TopDomains 1)) c4VolEsps).length
    ∧ ((make_company_results "example.com" "Acme" [⟨1, "Acme Shop"⟩] c4TopDomains c4VolEsps).2
        = List.replicate (brandEntries (dictOfPairs (c4TopDomains 1)) c4VolEsps).length 0
      ∧ materialize
          (make_company_results "example.com" "Acme" [⟨1, "Acme Shop"⟩] c4TopDomains c4VolEsps).1
          (make_company_results "example.com" "Acme" [⟨1, "Acme Shop"⟩] c4TopDomains c4VolEsps).2
        = List.replicate (brandEntries (dictOfPairs (c4TopDomains 1)) c4VolEsps).length
            (updateRec (CompanyDomainResult.init "example.com" "Acme" "Acme Shop")
              ((brandEntries (dictOfPairs (c4TopDomains 1)) c4VolEsps).getLastD ("", 0, [])))) :=
  ⟨by decide, c4_aliased_records "example.com" "Acme" ⟨1, "Acme Shop"⟩ c4TopDomains c4VolEsps
    (by decide)⟩

end CtBrands
